import Mathlib

/-!
Verification of the EDA-dashboard core (src/app.py) against its specification.

The app is a single Streamlit script: it loads a table (pandas DataFrame),
classifies columns by dtype, filters rows by categorical membership
(`df[df[col].isin(vals)]`), and builds chart specifications (histogram,
scatter, correlation heatmap, box, bar, line).  We embed the dataframe as a
list of column headers (name + dtype) together with row-major cell data, and
each chart block as a function returning `Except DispatchError ChartSpec`
(the `st.info` fallback branch of each block is the error outcome).
Pearson correlation entries are represented exactly over `ℚ` by the pair
(numerator, squared denominator) of the defining formula, so that the
floating-point value `r = num / sqrt den2` (NaN when `den2 = 0`) can be
reasoned about without real square roots.
-/

/-- A single cell of the table: missing (`NaN`), a string, a (rational-valued
approximation of a) number, or a boolean. -/
inductive Cell where
  | na : Cell
  | str (s : String) : Cell
  | num (q : ℚ) : Cell
  | boolean (b : Bool) : Cell
deriving DecidableEq, Repr

/-- Pandas dtypes relevant to `select_dtypes` in src/app.py (lines 51 and 62). -/
inductive Dtype where
  | float64 : Dtype
  | int64 : Dtype
  | object : Dtype
  | category : Dtype
  | boolDt : Dtype
  | datetime64 : Dtype
deriving DecidableEq, Repr

/-- A column header: a name together with the column's pandas dtype. -/
structure ColHeader where
  name : String
  dtype : Dtype
deriving DecidableEq, Repr

/-- A pandas DataFrame, embedded row-major: ordered headers plus rows of cells.
Rectangularity (every row has `headers.length` cells) is assumed where needed. -/
structure DataFrame where
  headers : List ColHeader
  rows : List (List Cell)
deriving DecidableEq, Repr

/-- Position of a named column among the headers (`df[name]` resolution). -/
def colIndex (df : DataFrame) (col : String) : Option Nat :=
  df.headers.findIdx? (fun h => h.name == col)

/-- The cells of column `col`, in row order (`df[col]` as a Series). -/
def columnCells (df : DataFrame) (col : String) : List Cell :=
  match colIndex df col with
  | some i => df.rows.map (fun r => r.getD i Cell.na)
  | none => []

/-- `df[df[col].isin(vals)]` (src/app.py line 56): keep the rows whose value in
`col` is a member of `vals`; all columns kept, order preserved.  A missing
column leaves the frame unchanged (the app only passes existing columns). -/
def applyFilter (df : DataFrame) (col : String) (vals : List Cell) : DataFrame :=
  match colIndex df col with
  | some i => { df with rows := df.rows.filter (fun r => decide (r.getD i Cell.na ∈ vals)) }
  | none => df

/-- `select_dtypes(include=['float64', 'int64'])` (src/app.py line 62). -/
def numericDtype (d : Dtype) : Bool :=
  d == Dtype.float64 || d == Dtype.int64

/-- `select_dtypes(include=['object', 'category'])` (src/app.py line 51). -/
def categoricalDtype (d : Dtype) : Bool :=
  d == Dtype.object || d == Dtype.category

/-- `df.select_dtypes(include=['float64', 'int64']).columns.tolist()`. -/
def numericCols (df : DataFrame) : List String :=
  (df.headers.filter (fun h => numericDtype h.dtype)).map ColHeader.name

/-- `df.select_dtypes(include=['object', 'category']).columns.tolist()`. -/
def categoricalCols (df : DataFrame) : List String :=
  (df.headers.filter (fun h => categoricalDtype h.dtype)).map ColHeader.name

/-- The chart kinds produced by the six chart blocks of `main`. -/
inductive ChartKind where
  | histogram : ChartKind
  | scatter : ChartKind
  | box : ChartKind
  | bar : ChartKind
  | line : ChartKind
deriving DecidableEq, Repr

/-- The typed failure of a chart block whose precondition on the schema is
unmet; in src/app.py this is the `st.info(...)` branch that skips the chart. -/
inductive DispatchError where
  | unsupportedRequest (msg : String) : DispatchError
deriving DecidableEq, Repr

/-- A resolved, renderer-agnostic chart description: the plotly-express call
the app makes, with the frame passed as the data slice and the chosen
encodings.  For line charts `x = none` encodes the "Index" choice. -/
structure ChartSpec where
  kind : ChartKind
  data : DataFrame
  x : Option String
  y : Option String
  color : Option String
  title : String
deriving DecidableEq, Repr

/-- Histogram block (src/app.py lines 61-72): requires a numeric column in the
unfiltered frame's schema; charts the filtered frame in full. -/
def histBlock (df dfF : DataFrame) (xCol : String) (color : Option String) :
    Except DispatchError ChartSpec :=
  if numericCols df = [] then
    Except.error (DispatchError.unsupportedRequest "No numeric columns available for histogram.")
  else
    Except.ok { kind := ChartKind.histogram, data := dfF, x := some xCol, y := none,
                color := color, title := "Histogram of " ++ xCol }

/-- Scatter block (src/app.py lines 74-86): requires at least two numeric
columns; charts the filtered frame in full. -/
def scatterBlock (df dfF : DataFrame) (xCol yCol : String) (color : Option String) :
    Except DispatchError ChartSpec :=
  if 2 ≤ (numericCols df).length then
    Except.ok { kind := ChartKind.scatter, data := dfF, x := some xCol, y := some yCol,
                color := color, title := "Scatter Plot: " ++ xCol ++ " vs " ++ yCol }
  else
    Except.error (DispatchError.unsupportedRequest
      "At least two numeric columns are required for scatter plot.")

/-- Box-plot block (src/app.py lines 98-109): requires a numeric column; the
optional grouping column becomes the x axis; charts the filtered frame. -/
def boxBlock (df dfF : DataFrame) (yCol : String) (color : Option String) :
    Except DispatchError ChartSpec :=
  if numericCols df = [] then
    Except.error (DispatchError.unsupportedRequest "No numeric columns available for box plot.")
  else
    Except.ok { kind := ChartKind.box, data := dfF, x := color, y := some yCol,
                color := color,
                title := "Box Plot of " ++ yCol }

/-- Line-chart block (src/app.py lines 124-138): requires at least one numeric
column; `x = none` is the "Index" option (row position); charts the filtered
frame in full. -/
def lineBlock (df dfF : DataFrame) (xCol : Option String) (yCol : String)
    (color : Option String) : Except DispatchError ChartSpec :=
  if 1 ≤ (numericCols df).length then
    Except.ok { kind := ChartKind.line, data := dfF, x := xCol, y := some yCol,
                color := color, title := "Line Chart: " ++ yCol }
  else
    Except.error (DispatchError.unsupportedRequest
      "At least one numeric column is required for line chart.")

/-- `df_filtered[col].value_counts()` (src/app.py line 116): drop missing
cells, count each distinct observed value, and sort the (value, count) pairs
by count in non-increasing order. -/
def valueCounts (cells : List Cell) : List (Cell × Nat) :=
  let obs := cells.filter (fun c => decide (c ≠ Cell.na))
  List.insertionSort (fun a b => b.2 ≤ a.2) (obs.dedup.map (fun v => (v, obs.count v)))

/-- The two-column counts table `value_counts().reset_index()` with columns
renamed to `[col, 'count']` (src/app.py lines 116-117). -/
def countsFrame (dfF : DataFrame) (col : String) : DataFrame :=
  { headers := [⟨col, Dtype.object⟩, ⟨"count", Dtype.int64⟩],
    rows := (valueCounts (columnCells dfF col)).map (fun p => [p.1, Cell.num (p.2 : ℚ)]) }

/-- Bar-chart block (src/app.py lines 111-122): requires a categorical column;
the charted data is the aggregated counts table of the filtered frame, not the
raw rows. -/
def barBlock (df dfF : DataFrame) (selCat : String) : Except DispatchError ChartSpec :=
  if categoricalCols df = [] then
    Except.error (DispatchError.unsupportedRequest "No categorical columns available for bar chart.")
  else
    Except.ok { kind := ChartKind.bar, data := countsFrame dfF selCat,
                x := some selCat, y := some "count", color := none,
                title := "Bar Chart of " ++ selCat ++ " Counts" }

/-- Dot product of two rational sequences (truncated to the shorter one). -/
def dotQ : List ℚ → List ℚ → ℚ
  | a :: as, b :: bs => a * b + dotQ as bs
  | _, _ => 0

/-- Arithmetic mean of a rational sequence (0 for the empty sequence). -/
def meanQ (l : List ℚ) : ℚ :=
  l.sum / l.length

/-- Centering: subtract the mean from every element. -/
def centerQ (l : List ℚ) : List ℚ :=
  l.map (fun x => x - meanQ l)

/-- One entry of the Pearson correlation matrix, represented exactly: the
floating-point value pandas computes is `num / Real.sqrt den2`, which is NaN
exactly when `den2 = 0` (a zero-variance or empty pairing). -/
structure CorrEntry where
  num : ℚ
  den2 : ℚ
deriving DecidableEq, Repr

/-- The entry is NaN: zero denominator in `r = num / sqrt den2`. -/
def CorrEntry.isNaN (e : CorrEntry) : Prop :=
  e.den2 = 0

instance (e : CorrEntry) : Decidable e.isNaN := by
  unfold CorrEntry.isNaN
  infer_instance

/-- The entry's value is exactly 1.0: `num / sqrt den2 = 1` with a nonzero
denominator, i.e. `den2 = num ^ 2` with `num` positive. -/
def CorrEntry.isOne (e : CorrEntry) : Prop :=
  e.den2 = e.num ^ 2 ∧ 0 < e.num

instance (e : CorrEntry) : Decidable e.isOne := by
  unfold CorrEntry.isOne
  infer_instance

/-- The entry's value lies in [-1, 1] whenever it is defined:
`num ^ 2 ≤ den2` gives `|num / sqrt den2| ≤ 1` when `den2 ≠ 0`. -/
def CorrEntry.bounded (e : CorrEntry) : Prop :=
  e.num ^ 2 ≤ e.den2

instance (e : CorrEntry) : Decidable e.bounded := by
  unfold CorrEntry.bounded
  infer_instance

/-- Pearson entry for a pairwise-complete sample of (x, y) observations:
`num = Σ x'y'` and `den2 = (Σ x'²)(Σ y'²)` over the centered sample. -/
def pearsonPairs (ps : List (ℚ × ℚ)) : CorrEntry :=
  let xc := centerQ (ps.map Prod.fst)
  let yc := centerQ (ps.map Prod.snd)
  { num := dotQ xc yc, den2 := dotQ xc xc * dotQ yc yc }

/-- The numeric value of a cell, when it has one. -/
def numOf : Cell → Option ℚ
  | Cell.num q => some q
  | _ => none

/-- Keep a pair of cells only when both are numbers. -/
def pairNums (p : Cell × Cell) : Option (ℚ × ℚ) :=
  match numOf p.1, numOf p.2 with
  | some a, some b => some (a, b)
  | _, _ => none

/-- Pairwise deletion: the rows where both columns hold numbers, as pairs
(this is how pandas `corr` pairs two columns, dropping NaNs pairwise). -/
def pairedCells (df : DataFrame) (c₁ c₂ : String) : List (ℚ × ℚ) :=
  ((columnCells df c₁).zip (columnCells df c₂)).filterMap pairNums

/-- The numeric values of a column, missing and non-numeric cells dropped. -/
def numValues (df : DataFrame) (c : String) : List ℚ :=
  (columnCells df c).filterMap numOf

/-- The centered sum of squares `Σ (x - mean)²` of a column's numeric values:
the variance numerator.  A column's diagonal correlation entry is
`varTerm / sqrt (varTerm * varTerm)` — exactly 1.0 iff `varTerm ≠ 0`, NaN
otherwise. -/
def varTerm (df : DataFrame) (c : String) : ℚ :=
  dotQ (centerQ (numValues df c)) (centerQ (numValues df c))

/-- `df_filtered[numeric_cols].corr()` (src/app.py line 91): the Pearson
correlation matrix over the listed columns, entry (i, j) computed from the
pairwise-complete sample of columns i and j. -/
def corrMatrix (df : DataFrame) (cols : List String) : List (List CorrEntry) :=
  cols.map (fun ci => cols.map (fun cj => pearsonPairs (pairedCells df ci cj)))

/-- Heatmap block (src/app.py lines 88-96): requires more than one numeric
column; delegates to the correlation matrix of the filtered frame. -/
def heatmapBlock (df dfF : DataFrame) : Except DispatchError (List (List CorrEntry)) :=
  if 1 < (numericCols df).length then
    Except.ok (corrMatrix dfF (numericCols df))
  else
    Except.error (DispatchError.unsupportedRequest
      "At least two numeric columns are required for correlation heatmap.")

/-- Modelled from the spec: the Memoization Cache (`get_or_compute`, spec
§4.3).  src/app.py only carries the `@st.cache_data` decorator on `load_data`
(lines 8-14); the cache mechanism itself is Streamlit's and is not in the
repository, so its mapping from keys to previously computed results is
modelled here from the spec's words. -/
structure MemoCache (κ ρ : Type) where
  entries : List (κ × ρ)

/-- Lookup of a key in the cache. -/
def MemoCache.find {κ ρ : Type} [DecidableEq κ] (c : MemoCache κ ρ) (k : κ) : Option ρ :=
  (c.entries.find? (fun e => decide (e.1 = k))).map Prod.snd

/-- Modelled from the spec: `get_or_compute(key, compute_fn)` (spec §4.3).
Returns the result, the updated cache, and the number of times `compute_fn`
was invoked by this call (0 on a hit, 1 on a miss). -/
def getOrCompute {κ ρ : Type} [DecidableEq κ] (c : MemoCache κ ρ) (k : κ)
    (f : Unit → ρ) : ρ × MemoCache κ ρ × Nat :=
  match c.find k with
  | some r => (r, c, 0)
  | none =>
    let r := f ()
    (r, ⟨(k, r) :: c.entries⟩, 1)

/-- A three-row iris-style frame used to instantiate the filter theorems. -/
def sampleDf : DataFrame :=
  { headers := [⟨"sepal length (cm)", Dtype.float64⟩, ⟨"species", Dtype.object⟩],
    rows := [[Cell.num (51/10), Cell.str "setosa"],
             [Cell.num 7, Cell.str "versicolor"],
             [Cell.num (63/10), Cell.str "virginica"]] }

/-- A frame whose only column has dtype `bool` (as `pd.read_csv` infers for a
True/False column): it is classified neither numeric nor categorical. -/
def boolDf : DataFrame :=
  { headers := [⟨"flag", Dtype.boolDt⟩],
    rows := [[Cell.boolean true], [Cell.boolean false]] }

/-- A 9001-row frame with two numeric columns, for the truncation claim. -/
def bigDf : DataFrame :=
  { headers := [⟨"a", Dtype.float64⟩, ⟨"b", Dtype.float64⟩],
    rows := List.replicate 9001 [Cell.num 1, Cell.num 2] }

/-- A frame with a single numeric column (scatter must be rejected). -/
def oneNumDf : DataFrame :=
  { headers := [⟨"a", Dtype.float64⟩, ⟨"species", Dtype.object⟩],
    rows := [[Cell.num 1, Cell.str "setosa"]] }

/-- A frame whose single numeric column is constant: its variance is zero, so
its pandas correlation with itself is NaN, not 1.0. -/
def constDf : DataFrame :=
  { headers := [⟨"a", Dtype.float64⟩],
    rows := [[Cell.num 5], [Cell.num 5]] }

/-- A small frame with two non-constant numeric columns, for the correlation
witnesses. -/
def twoNumDf : DataFrame :=
  { headers := [⟨"a", Dtype.float64⟩, ⟨"b", Dtype.float64⟩],
    rows := [[Cell.num 1, Cell.num 4], [Cell.num 2, Cell.num 3], [Cell.num 4, Cell.num 7]] }

theorem DataFrame.ext' {df₁ df₂ : DataFrame} (h₁ : df₁.headers = df₂.headers)
    (h₂ : df₁.rows = df₂.rows) : df₁ = df₂ := by
  cases df₁
  cases df₂
  simp_all

theorem headers_applyFilter (df : DataFrame) (col : String) (vals : List Cell) :
    (applyFilter df col vals).headers = df.headers := by
  unfold applyFilter
  cases colIndex df col <;> rfl

theorem colIndex_eq_of_headers_eq {df₁ df₂ : DataFrame} (col : String)
    (h : df₁.headers = df₂.headers) : colIndex df₁ col = colIndex df₂ col := by
  unfold colIndex
  rw [h]

theorem rows_applyFilter {df : DataFrame} {col : String} {i : Nat}
    (h : colIndex df col = some i) (vals : List Cell) :
    (applyFilter df col vals).rows
      = df.rows.filter (fun r => decide (r.getD i Cell.na ∈ vals)) := by
  unfold applyFilter
  rw [h]

/-- C1. For every dataset, categorical column `col` (resolved to index `i`) and
value set `vals`, the filter returns exactly the sub-sequence of rows whose
value in `col` is a member of `vals`: all columns are kept, the rows are a
sublist (original order preserved), membership characterises the kept rows,
the row count does not grow, and filtering again with the same column and
values is a no-op. -/
theorem filter_exact_subsequence (df : DataFrame) (col : String) (vals : List Cell)
    (i : Nat) (h : colIndex df col = some i) :
    (applyFilter df col vals).headers = df.headers ∧
    (applyFilter df col vals).rows
      = df.rows.filter (fun r => decide (r.getD i Cell.na ∈ vals)) ∧
    (applyFilter df col vals).rows.Sublist df.rows ∧
    (∀ r ∈ (applyFilter df col vals).rows, r.getD i Cell.na ∈ vals) ∧
    (applyFilter df col vals).rows.length ≤ df.rows.length ∧
    applyFilter (applyFilter df col vals) col vals = applyFilter df col vals := by
  refine ⟨headers_applyFilter df col vals, rows_applyFilter h vals, ?_, ?_, ?_, ?_⟩
  · rw [rows_applyFilter h vals]
    exact List.filter_sublist _
  · intro r hr
    rw [rows_applyFilter h vals] at hr
    simpa using (List.mem_filter.mp hr).2
  · rw [rows_applyFilter h vals]
    exact List.length_filter_le _ _
  · have hidx : colIndex (applyFilter df col vals) col = some i := by
      rw [colIndex_eq_of_headers_eq col (headers_applyFilter df col vals), h]
    apply DataFrame.ext'
    · rw [headers_applyFilter, headers_applyFilter]
    · rw [rows_applyFilter hidx vals, rows_applyFilter h vals]
      apply List.filter_eq_self.mpr
      intro a ha
      exact (List.mem_filter.mp ha).2

/-- Witness for C1 at a concrete frame, column and value set. -/
theorem filter_exact_subsequence_witness :
    (applyFilter sampleDf "species" [Cell.str "setosa"]).rows.length
      ≤ sampleDf.rows.length ∧
    applyFilter (applyFilter sampleDf "species" [Cell.str "setosa"]) "species"
        [Cell.str "setosa"]
      = applyFilter sampleDf "species" [Cell.str "setosa"] :=
  ⟨(filter_exact_subsequence sampleDf "species" [Cell.str "setosa"] 1 (by decide)).2.2.2.2.1,
   (filter_exact_subsequence sampleDf "species" [Cell.str "setosa"] 1 (by decide)).2.2.2.2.2⟩

theorem columnCells_of_rows_nil {df : DataFrame} (h : df.rows = []) (c : String) :
    columnCells df c = [] := by
  unfold columnCells
  cases colIndex df c <;> simp [h]

/-- C6. Filtering with an empty value set returns a dataset with zero rows and
the same columns, raising no error, and downstream aggregation (the bar
chart's value counts) of any column of the result is the empty, well-defined
table rather than a crash. -/
theorem filter_empty_values (df : DataFrame) (col : String) (i : Nat)
    (h : colIndex df col = some i) :
    (applyFilter df col []).rows = [] ∧
    (applyFilter df col []).headers = df.headers ∧
    (∀ c, valueCounts (columnCells (applyFilter df col []) c) = []) := by
  have hrows : (applyFilter df col []).rows = [] := by
    rw [rows_applyFilter h]
    simp
  refine ⟨hrows, headers_applyFilter df col [], ?_⟩
  intro c
  rw [columnCells_of_rows_nil hrows c]
  rfl

/-- Witness for C6 on the iris-style frame. -/
theorem filter_empty_values_witness :
    (applyFilter sampleDf "species" []).rows = [] ∧
    (applyFilter sampleDf "species" []).headers = sampleDf.headers ∧
    (∀ c, valueCounts (columnCells (applyFilter sampleDf "species" []) c) = []) :=
  filter_empty_values sampleDf "species" 1 (by decide)

/-- C9. Filtering a column by the set of all its distinct observed values (the
multiselect's default) is the identity on the dataset. -/
theorem filter_all_values_identity (df : DataFrame) (col : String) (i : Nat)
    (h : colIndex df col = some i) :
    applyFilter df col (columnCells df col).dedup = df := by
  apply DataFrame.ext'
  · exact headers_applyFilter df col _
  · rw [rows_applyFilter h]
    apply List.filter_eq_self.mpr
    intro r hr
    have hmem : r.getD i Cell.na ∈ columnCells df col := by
      unfold columnCells
      rw [h]
      exact List.mem_map_of_mem _ hr
    simpa [List.mem_dedup] using hmem

/-- Witness for C9 on the iris-style frame. -/
theorem filter_all_values_identity_witness :
    applyFilter sampleDf "species" (columnCells sampleDf "species").dedup = sampleDf :=
  filter_all_values_identity sampleDf "species" 1 (by decide)

/-- C2 counterexample. A one-column frame whose column has dtype `bool` (as
`pd.read_csv` infers for a True/False column): every non-missing value can be
interpreted as a real number, yet `select_dtypes` puts the column in neither
the numeric nor the categorical list, so the claimed partition omits it. -/
theorem classify_omits_bool_column :
    boolDf.headers.length = 1 ∧ numericCols boolDf = [] ∧ categoricalCols boolDf = [] := by
  refine ⟨rfl, ?_, ?_⟩ <;> rfl

/-- C2 amended. Classification assigns every column at most one role — with
distinct column names, no column is in both the numeric and the categorical
list — and a column is numeric iff its dtype is float64 or int64, categorical
iff its dtype is object or category; columns of any other dtype (e.g. bool or
datetime) are omitted from both lists. -/
theorem classify_roles_disjoint (df : DataFrame)
    (hnd : (df.headers.map ColHeader.name).Nodup) :
    (∀ c, ¬(c ∈ numericCols df ∧ c ∈ categoricalCols df)) ∧
    (∀ h ∈ df.headers,
      (h.name ∈ numericCols df ↔ numericDtype h.dtype = true) ∧
      (h.name ∈ categoricalCols df ↔ categoricalDtype h.dtype = true)) := by
  have hinj : ∀ x ∈ df.headers, ∀ y ∈ df.headers, x.name = y.name → x = y :=
    List.inj_on_of_nodup_map hnd
  have hdt : ∀ d, ¬(numericDtype d = true ∧ categoricalDtype d = true) := by
    intro d
    cases d <;> decide
  constructor
  · rintro c ⟨hn, hc⟩
    obtain ⟨h₁, hh₁, hn₁⟩ := List.mem_map.mp hn
    obtain ⟨h₂, hh₂, hn₂⟩ := List.mem_map.mp hc
    obtain ⟨hm₁, hd₁⟩ := List.mem_filter.mp hh₁
    obtain ⟨hm₂, hd₂⟩ := List.mem_filter.mp hh₂
    have : h₁ = h₂ := hinj h₁ hm₁ h₂ hm₂ (by rw [hn₁, hn₂])
    exact hdt h₁.dtype ⟨hd₁, this ▸ hd₂⟩
  · intro h hm
    constructor
    · constructor
      · intro hn
        obtain ⟨h₁, hh₁, hn₁⟩ := List.mem_map.mp hn
        obtain ⟨hm₁, hd₁⟩ := List.mem_filter.mp hh₁
        rwa [hinj h₁ hm₁ h hm hn₁] at hd₁
      · intro hd
        exact List.mem_map_of_mem _ (List.mem_filter.mpr ⟨hm, hd⟩)
    · constructor
      · intro hc
        obtain ⟨h₂, hh₂, hn₂⟩ := List.mem_map.mp hc
        obtain ⟨hm₂, hd₂⟩ := List.mem_filter.mp hh₂
        rwa [hinj h₂ hm₂ h hm hn₂] at hd₂
      · intro hd
        exact List.mem_map_of_mem _ (List.mem_filter.mpr ⟨hm, hd⟩)

/-- Witness for the amended C2 on the iris-style frame. -/
theorem classify_roles_disjoint_witness :
    ¬("species" ∈ numericCols sampleDf ∧ "species" ∈ categoricalCols sampleDf) :=
  (classify_roles_disjoint sampleDf (by decide)).1 "species"

/-- C3 counterexample. On a 9001-row frame the scatter block charts all 9001
rows: the data slice is not truncated to 8000 rows (and `ChartSpec` carries no
truncation flag anywhere in the code). -/
theorem scatter_not_truncated_at_9001 :
    (scatterBlock bigDf bigDf "a" "b" none).map (fun s => s.data.rows.length)
      = Except.ok 9001 ∧ (9001 : Nat) ≠ 8000 := by
  constructor
  · have hg : 2 ≤ (numericCols bigDf).length := by decide
    unfold scatterBlock
    rw [if_pos hg]
    show Except.ok (List.replicate 9001 [Cell.num 1, Cell.num 2]).length = Except.ok 9001
    rw [List.length_replicate]
  · decide

/-- C3 amended. No row cap exists: whenever the schema admits the chart, the
histogram, scatter, box and line blocks each chart the filtered frame in full,
whatever its row count. -/
theorem chart_blocks_no_cap (df dfF : DataFrame) (x y : String) (c : Option String)
    (h2 : 2 ≤ (numericCols df).length) :
    (scatterBlock df dfF x y c).map (fun s => s.data) = Except.ok dfF ∧
    (histBlock df dfF x c).map (fun s => s.data) = Except.ok dfF ∧
    (boxBlock df dfF y c).map (fun s => s.data) = Except.ok dfF ∧
    (lineBlock df dfF (some x) y c).map (fun s => s.data) = Except.ok dfF := by
  have hne : ¬(numericCols df = []) := by
    intro hnil
    rw [hnil] at h2
    simp at h2
  have h1 : 1 ≤ (numericCols df).length := le_trans (by omega) h2
  refine ⟨?_, ?_, ?_, ?_⟩
  · unfold scatterBlock
    rw [if_pos h2]
    rfl
  · unfold histBlock
    rw [if_neg hne]
    rfl
  · unfold boxBlock
    rw [if_neg hne]
    rfl
  · unfold lineBlock
    rw [if_pos h1]
    rfl

/-- Witness for the amended C3 at a concrete frame. -/
theorem chart_blocks_no_cap_witness :
    (scatterBlock twoNumDf twoNumDf "a" "b" none).map (fun s => s.data)
      = Except.ok twoNumDf :=
  (chart_blocks_no_cap twoNumDf twoNumDf "a" "b" none (by decide)).1

/-- C4. With fewer than two numeric columns in the schema, the scatter block
fails with the typed `UnsupportedRequestError` (the `st.info` branch) and
produces no `ChartSpec`. -/
theorem scatter_rejected_without_two_numeric (df dfF : DataFrame) (x y : String)
    (c : Option String) (h : (numericCols df).length < 2) :
    scatterBlock df dfF x y c = Except.error (DispatchError.unsupportedRequest
      "At least two numeric columns are required for scatter plot.") := by
  unfold scatterBlock
  rw [if_neg (by omega)]

/-- Witness for C4 on a frame with a single numeric column. -/
theorem scatter_rejected_without_two_numeric_witness :
    (numericCols oneNumDf).length < 2 ∧
    scatterBlock oneNumDf oneNumDf "a" "a" none
      = Except.error (DispatchError.unsupportedRequest
          "At least two numeric columns are required for scatter plot.") :=
  ⟨by decide, scatter_rejected_without_two_numeric oneNumDf oneNumDf "a" "a" none (by decide)⟩

/-- C7. Two calls to `get_or_compute` with the same key invoke the compute
function at most once combined and return equal results: a miss computes,
stores and returns the result; a hit returns the stored result without
recomputation. -/
theorem getOrCompute_at_most_once {κ ρ : Type} [DecidableEq κ] (c : MemoCache κ ρ)
    (k : κ) (f : Unit → ρ) :
    (getOrCompute c k f).1 = (getOrCompute (getOrCompute c k f).2.1 k f).1 ∧
    (getOrCompute c k f).2.2 + (getOrCompute (getOrCompute c k f).2.1 k f).2.2 ≤ 1 ∧
    (c.find k = none →
      (getOrCompute c k f).2.2 = 1 ∧ (getOrCompute c k f).2.1.find k
        = some (getOrCompute c k f).1) ∧
    (∀ r, c.find k = some r →
      (getOrCompute c k f).1 = r ∧ (getOrCompute c k f).2.2 = 0) := by
  have hfind : (MemoCache.mk ((k, f ()) :: c.entries) : MemoCache κ ρ).find k
      = some (f ()) := by
    unfold MemoCache.find
    simp
  rcases hc : c.find k with _ | r
  · have hfirst : getOrCompute c k f = (f (), ⟨(k, f ()) :: c.entries⟩, 1) := by
      unfold getOrCompute
      rw [hc]
    have h21 : (getOrCompute c k f).2.1 = MemoCache.mk ((k, f ()) :: c.entries) := by
      rw [hfirst]
    have hsec : getOrCompute (getOrCompute c k f).2.1 k f
        = (f (), MemoCache.mk ((k, f ()) :: c.entries), 0) := by
      rw [h21]
      unfold getOrCompute
      rw [hfind]
    refine ⟨?_, ?_, fun _ => ⟨?_, ?_⟩, fun r hr => absurd hr (by simp)⟩
    · rw [hsec, hfirst]
    · rw [hsec, hfirst]
      simp
    · rw [hfirst]
    · rw [hfirst]
      exact hfind
  · have hfirst : getOrCompute c k f = (r, c, 0) := by
      unfold getOrCompute
      rw [hc]
    have h21 : (getOrCompute c k f).2.1 = c := by
      rw [hfirst]
    have hsec : getOrCompute (getOrCompute c k f).2.1 k f = (r, c, 0) := by
      rw [h21]
      exact hfirst
    refine ⟨?_, ?_, fun hnone => absurd hnone (by simp), fun r' hr' => ⟨?_, ?_⟩⟩
    · rw [hsec, hfirst]
    · rw [hsec, hfirst]
      simp
    · injection hr' with h
      rw [hfirst, h]
    · rw [hfirst]

/-- Witness for C7: a fresh cache, the key 0 and the constant computation 42;
the miss stores 42 and the second call is a hit. -/
theorem getOrCompute_at_most_once_witness :
    (getOrCompute (MemoCache.mk ([] : List (Nat × Nat))) 0 (fun _ => 42)).1
      = (getOrCompute (getOrCompute (MemoCache.mk ([] : List (Nat × Nat))) 0
          (fun _ => 42)).2.1 0 (fun _ => 42)).1 ∧
    (getOrCompute (MemoCache.mk ([] : List (Nat × Nat))) 0 (fun _ => 42)).2.2
      + (getOrCompute (getOrCompute (MemoCache.mk ([] : List (Nat × Nat))) 0
          (fun _ => 42)).2.1 0 (fun _ => 42)).2.2 ≤ 1 :=
  ⟨(getOrCompute_at_most_once (MemoCache.mk []) 0 (fun _ => 42)).1,
   (getOrCompute_at_most_once (MemoCache.mk []) 0 (fun _ => 42)).2.1⟩

theorem valueCounts_perm (cells : List Cell) :
    (valueCounts cells).Perm
      (((cells.filter (fun c => decide (c ≠ Cell.na))).dedup).map
        (fun v => (v, (cells.filter (fun c => decide (c ≠ Cell.na))).count v))) := by
  unfold valueCounts
  exact List.perm_insertionSort _ _

theorem valueCounts_keys_perm (cells : List Cell) :
    ((valueCounts cells).map Prod.fst).Perm
      ((cells.filter (fun c => decide (c ≠ Cell.na))).dedup) := by
  have h := (valueCounts_perm cells).map Prod.fst
  rw [List.map_map] at h
  have heq : ((cells.filter (fun c => decide (c ≠ Cell.na))).dedup).map
      (Prod.fst ∘ fun v => (v, (cells.filter (fun c => decide (c ≠ Cell.na))).count v))
      = (cells.filter (fun c => decide (c ≠ Cell.na))).dedup := List.map_id _
  rw [heq] at h
  exact h

/-- C8. The bar-chart block aggregates: its charted data is the counts table
of the chosen categorical column of the filtered frame, whose keys are exactly
the distinct observed values of that column — one (category, count) pair per
distinct value, each count being the number of occurrences — not the raw rows. -/
theorem bar_chart_aggregates (df dfF : DataFrame) (selCat : String)
    (h : ¬(categoricalCols df = [])) :
    (barBlock df dfF selCat).map (fun s => s.data) = Except.ok (countsFrame dfF selCat) ∧
    ((valueCounts (columnCells dfF selCat)).map Prod.fst).Perm
      (((columnCells dfF selCat).filter (fun c => decide (c ≠ Cell.na))).dedup) ∧
    ((valueCounts (columnCells dfF selCat)).map Prod.fst).Nodup ∧
    (∀ p ∈ valueCounts (columnCells dfF selCat),
      p.2 = ((columnCells dfF selCat).filter (fun c => decide (c ≠ Cell.na))).count p.1) := by
  refine ⟨?_, valueCounts_keys_perm _, ?_, ?_⟩
  · unfold barBlock
    rw [if_neg h]
    rfl
  · exact (valueCounts_keys_perm _).nodup_iff.mpr (List.nodup_dedup _)
  · intro p hp
    have hmem := (valueCounts_perm (columnCells dfF selCat)).mem_iff.mp hp
    obtain ⟨v, _, hv⟩ := List.mem_map.mp hmem
    rw [← hv]

/-- Witness for C8 on the iris-style frame. -/
theorem bar_chart_aggregates_witness :
    (barBlock sampleDf sampleDf "species").map (fun s => s.data)
      = Except.ok (countsFrame sampleDf "species") :=
  (bar_chart_aggregates sampleDf sampleDf "species" (by decide)).1

/-- C10. The bar-chart aggregation drops missing values (NaN is never a key),
returns its (category, count) pairs sorted in non-increasing order of count,
and the counts sum to the number of non-missing entries of the column in the
filtered frame. -/
theorem value_counts_sorted_total (dfF : DataFrame) (col : String) :
    Cell.na ∉ (valueCounts (columnCells dfF col)).map Prod.fst ∧
    List.Sorted (fun a b : Cell × Nat => b.2 ≤ a.2) (valueCounts (columnCells dfF col)) ∧
    ((valueCounts (columnCells dfF col)).map Prod.snd).sum
      = ((columnCells dfF col).filter (fun c => decide (c ≠ Cell.na))).length := by
  refine ⟨?_, ?_, ?_⟩
  · intro hna
    have hmem := (valueCounts_keys_perm (columnCells dfF col)).mem_iff.mp hna
    have : Cell.na ∈ (columnCells dfF col).filter (fun c => decide (c ≠ Cell.na)) :=
      List.mem_dedup.mp hmem
    simpa using (List.mem_filter.mp this).2
  · unfold valueCounts
    haveI : IsTotal (Cell × Nat) (fun a b => b.2 ≤ a.2) := ⟨fun a b => le_total b.2 a.2⟩
    haveI : IsTrans (Cell × Nat) (fun a b => b.2 ≤ a.2) :=
      ⟨fun _ _ _ hab hbc => le_trans hbc hab⟩
    exact List.sorted_insertionSort _ _
  · have h := ((valueCounts_perm (columnCells dfF col)).map Prod.snd).sum_eq
    rw [h, List.map_map]
    exact List.sum_map_count_dedup_eq_length _

theorem dotQ_nil_left (b : List ℚ) : dotQ [] b = 0 := by
  cases b <;> rfl

theorem dotQ_nil_right (a : List ℚ) : dotQ a [] = 0 := by
  cases a <;> rfl

theorem dotQ_cons (a b : ℚ) (as bs : List ℚ) :
    dotQ (a :: as) (b :: bs) = a * b + dotQ as bs := rfl

theorem dotQ_self_nonneg : ∀ a : List ℚ, 0 ≤ dotQ a a
  | [] => le_refl 0
  | x :: xs => by
    rw [dotQ_cons]
    have h := dotQ_self_nonneg xs
    nlinarith [mul_self_nonneg x]

theorem dotQ_comm : ∀ a b : List ℚ, dotQ a b = dotQ b a
  | [], [] => rfl
  | [], _ :: _ => rfl
  | _ :: _, [] => rfl
  | a :: as, b :: bs => by
    rw [dotQ_cons, dotQ_cons, mul_comm, dotQ_comm as bs]

/-- Cauchy-Schwarz for `dotQ`: the squared cross term is bounded by the
product of the squared norms. -/
theorem dotQ_cauchy : ∀ a b : List ℚ, (dotQ a b) ^ 2 ≤ dotQ a a * dotQ b b
  | [], b => by
    rw [dotQ_nil_left, dotQ_nil_left]
    simp
  | a :: as, [] => by
    rw [dotQ_nil_right, dotQ_nil_right]
    simp
  | a :: as, b :: bs => by
    have IH := dotQ_cauchy as bs
    have hX := dotQ_self_nonneg as
    have hY := dotQ_self_nonneg bs
    rw [dotQ_cons, dotQ_cons, dotQ_cons]
    rcases eq_or_lt_of_le hY with h0 | hpos
    · have hS : dotQ as bs = 0 := by nlinarith [sq_nonneg (dotQ as bs)]
      rw [hS, ← h0]
      nlinarith [mul_nonneg hX (mul_self_nonneg b)]
    · nlinarith [sq_nonneg (a * dotQ bs bs - b * dotQ as bs),
        mul_nonneg (sub_nonneg.mpr IH) (add_nonneg (mul_self_nonneg b) hY)]

theorem pearsonPairs_def (ps : List (ℚ × ℚ)) :
    pearsonPairs ps = CorrEntry.mk
      (dotQ (centerQ (ps.map Prod.fst)) (centerQ (ps.map Prod.snd)))
      (dotQ (centerQ (ps.map Prod.fst)) (centerQ (ps.map Prod.fst))
        * dotQ (centerQ (ps.map Prod.snd)) (centerQ (ps.map Prod.snd))) := rfl

theorem pearsonPairs_bounded (ps : List (ℚ × ℚ)) : (pearsonPairs ps).bounded := by
  unfold CorrEntry.bounded
  rw [pearsonPairs_def]
  exact dotQ_cauchy _ _

theorem pearsonPairs_swap_eq (ps : List (ℚ × ℚ)) :
    pearsonPairs (ps.map Prod.swap) = pearsonPairs ps := by
  have hfst : (ps.map Prod.swap).map Prod.fst = ps.map Prod.snd := by
    rw [List.map_map]
    rfl
  have hsnd : (ps.map Prod.swap).map Prod.snd = ps.map Prod.fst := by
    rw [List.map_map]
    rfl
  rw [pearsonPairs_def, pearsonPairs_def, hfst, hsnd,
    dotQ_comm (centerQ (ps.map Prod.snd)) (centerQ (ps.map Prod.fst)),
    mul_comm (dotQ (centerQ (ps.map Prod.snd)) (centerQ (ps.map Prod.snd)))
      (dotQ (centerQ (ps.map Prod.fst)) (centerQ (ps.map Prod.fst)))]

theorem pairedCells_swap (df : DataFrame) (c₁ c₂ : String) :
    pairedCells df c₂ c₁ = (pairedCells df c₁ c₂).map Prod.swap := by
  unfold pairedCells
  rw [← List.zip_swap, List.filterMap_map, List.map_filterMap]
  congr 1
  funext p
  rcases p with ⟨x, y⟩
  cases x <;> cases y <;> rfl

theorem zip_self_eq_map : ∀ l : List Cell, l.zip l = l.map (fun a => (a, a))
  | [] => rfl
  | a :: l => by
    rw [List.zip_cons_cons, zip_self_eq_map l]
    rfl

theorem pairedCells_self (df : DataFrame) (c : String) :
    pairedCells df c c = (numValues df c).map (fun q => (q, q)) := by
  unfold pairedCells numValues
  rw [zip_self_eq_map, List.filterMap_map, List.map_filterMap]
  congr 1
  funext a
  cases a <;> rfl

theorem pearsonPairs_dup (L : List ℚ) :
    pearsonPairs (L.map (fun q => (q, q)))
      = CorrEntry.mk (dotQ (centerQ L) (centerQ L))
          (dotQ (centerQ L) (centerQ L) * dotQ (centerQ L) (centerQ L)) := by
  have hfst : (L.map (fun q => (q, q))).map Prod.fst = L := by
    rw [List.map_map]
    exact List.map_id L
  have hsnd : (L.map (fun q => (q, q))).map Prod.snd = L := by
    rw [List.map_map]
    exact List.map_id L
  rw [pearsonPairs_def, hfst, hsnd]

theorem varTerm_nonneg (df : DataFrame) (c : String) : 0 ≤ varTerm df c :=
  dotQ_self_nonneg _

theorem corrMatrix_length (df : DataFrame) (cols : List String) :
    (corrMatrix df cols).length = cols.length := by
  unfold corrMatrix
  exact List.length_map _ _

theorem getD_map_of_lt {α β : Type} (f : α → β) (l : List α) (dα : α) (dβ : β)
    {i : Nat} (hi : i < l.length) : (l.map f).getD i dβ = f (l.getD i dα) := by
  rw [List.getD_eq_getElem _ _ (by simpa using hi), List.getD_eq_getElem _ _ hi]
  exact List.getElem_map _

theorem corrMatrix_entry (df : DataFrame) (cols : List String) {i j : Nat}
    (hi : i < cols.length) (hj : j < cols.length) :
    ((corrMatrix df cols).getD i []).getD j (CorrEntry.mk 0 0)
      = pearsonPairs (pairedCells df (cols.getD i "") (cols.getD j "")) := by
  unfold corrMatrix
  rw [getD_map_of_lt (fun ci => cols.map (fun cj => pearsonPairs (pairedCells df ci cj)))
    cols "" [] hi]
  rw [getD_map_of_lt (fun cj => pearsonPairs (pairedCells df (cols.getD i "") cj))
    cols "" (CorrEntry.mk 0 0) hj]

theorem corrMatrix_entry_default (df : DataFrame) (cols : List String) {i j : Nat}
    (h : ¬(i < cols.length ∧ j < cols.length)) :
    ((corrMatrix df cols).getD i []).getD j (CorrEntry.mk 0 0) = CorrEntry.mk 0 0 := by
  by_cases hi : i < cols.length
  · have hj : cols.length ≤ j := by
      rcases Nat.lt_or_ge j cols.length with hlt | hge
      · exact absurd ⟨hi, hlt⟩ h
      · exact hge
    unfold corrMatrix
    rw [getD_map_of_lt (fun ci => cols.map (fun cj => pearsonPairs (pairedCells df ci cj)))
      cols "" [] hi]
    exact List.getD_eq_default _ _ (by simpa using hj)
  · have h1 : (corrMatrix df cols).getD i [] = [] :=
      List.getD_eq_default _ _ (by rw [corrMatrix_length]; omega)
    rw [h1]
    exact List.getD_eq_default _ _ (by simp)

theorem numValues_constDf : numValues constDf "a" = [(5 : ℚ), 5] := rfl

theorem varTerm_constDf : varTerm constDf "a" = 0 := by
  unfold varTerm
  rw [numValues_constDf]
  have hc : centerQ [(5 : ℚ), 5] = [0, 0] := by
    unfold centerQ meanQ
    norm_num
  rw [hc, dotQ_cons, dotQ_cons, dotQ_nil_left]
  norm_num

theorem numValues_twoNumDf : numValues twoNumDf "a" = [(1 : ℚ), 2, 4] := rfl

theorem varTerm_twoNumDf : varTerm twoNumDf "a" = 14/3 := by
  unfold varTerm
  rw [numValues_twoNumDf]
  have hc : centerQ [(1 : ℚ), 2, 4] = [-4/3, -1/3, 5/3] := by
    unfold centerQ meanQ
    norm_num
  rw [hc, dotQ_cons, dotQ_cons, dotQ_cons, dotQ_nil_left]
  norm_num

/-- C5 counterexample. For the single constant column of `constDf` (values
[5, 5], zero variance), the 1×1 correlation matrix's only entry has numerator
and squared denominator both 0: pandas renders it as NaN, not as the claimed
1.0, so the diagonal is not always exactly 1.0 and the single-column matrix is
not always [[1.0]]. -/
theorem corr_diag_nan_at_constant :
    corrMatrix constDf ["a"] = [[CorrEntry.mk 0 0]] ∧
    (CorrEntry.mk 0 0).isNaN ∧ ¬(CorrEntry.mk 0 0).isOne := by
  have h1 : corrMatrix constDf ["a"]
      = [[CorrEntry.mk (varTerm constDf "a") (varTerm constDf "a" * varTerm constDf "a")]] := by
    show [[pearsonPairs (pairedCells constDf "a" "a")]] = _
    rw [pairedCells_self, pearsonPairs_dup]
    exact rfl
  refine ⟨?_, ?_, ?_⟩
  · rw [h1, varTerm_constDf]
    norm_num
  · exact rfl
  · unfold CorrEntry.isOne
    simp

/-- C5 amended. The correlation matrix over any column list is square
(`cols.length × cols.length`) and symmetric (`M[i][j] = M[j][i]`, out-of-range
accesses giving the same default on both sides); every entry satisfies
`num² ≤ den2`, i.e. its value lies in [-1, 1] whenever it is defined; a
diagonal entry is exactly 1.0 whenever the column's variance term is nonzero
(and NaN otherwise); and a single-column request yields the 1×1 matrix whose
only entry is 1.0 exactly when the column's variance term is nonzero. -/
theorem corr_matrix_props (df : DataFrame) (cols : List String) :
    (corrMatrix df cols).length = cols.length ∧
    (∀ row ∈ corrMatrix df cols, row.length = cols.length) ∧
    (∀ i j, ((corrMatrix df cols).getD i []).getD j (CorrEntry.mk 0 0)
      = ((corrMatrix df cols).getD j []).getD i (CorrEntry.mk 0 0)) ∧
    (∀ row ∈ corrMatrix df cols, ∀ e ∈ row, e.bounded) ∧
    (∀ i, i < cols.length → varTerm df (cols.getD i "") ≠ 0 →
      (((corrMatrix df cols).getD i []).getD i (CorrEntry.mk 0 0)).isOne) ∧
    (∀ c, corrMatrix df [c]
      = [[CorrEntry.mk (varTerm df c) (varTerm df c * varTerm df c)]]) := by
  refine ⟨corrMatrix_length df cols, ?_, ?_, ?_, ?_, ?_⟩
  · intro row hr
    obtain ⟨ci, _, hci⟩ := List.mem_map.mp hr
    rw [← hci]
    exact List.length_map _ _
  · intro i j
    by_cases hij : i < cols.length ∧ j < cols.length
    · rw [corrMatrix_entry df cols hij.1 hij.2, corrMatrix_entry df cols hij.2 hij.1,
        pairedCells_swap df (cols.getD i "") (cols.getD j ""), pearsonPairs_swap_eq]
    · rw [corrMatrix_entry_default df cols hij,
        corrMatrix_entry_default df cols (fun hc => hij ⟨hc.2, hc.1⟩)]
  · intro row hr e he
    obtain ⟨ci, _, hci⟩ := List.mem_map.mp hr
    rw [← hci] at he
    obtain ⟨cj, _, hcj⟩ := List.mem_map.mp he
    rw [← hcj]
    exact pearsonPairs_bounded _
  · intro i hi hne
    rw [corrMatrix_entry df cols hi hi, pairedCells_self, pearsonPairs_dup]
    unfold CorrEntry.isOne
    constructor
    · exact (pow_two _).symm
    · exact lt_of_le_of_ne (varTerm_nonneg df _) (Ne.symm hne)
  · intro c
    show [[pearsonPairs (pairedCells df c c)]] = _
    rw [pairedCells_self, pearsonPairs_dup]
    exact rfl

/-- Witness for the amended C5: on `twoNumDf` the column "a" has nonzero
variance, so the (0,0) diagonal entry is exactly 1.0. -/
theorem corr_matrix_props_witness :
    (((corrMatrix twoNumDf ["a", "b"]).getD 0 []).getD 0 (CorrEntry.mk 0 0)).isOne :=
  (corr_matrix_props twoNumDf ["a", "b"]).2.2.2.2.1 0 (by decide)
    (by
      have h : varTerm twoNumDf (["a", "b"].getD 0 "") = 14/3 := varTerm_twoNumDf
      rw [h]
      norm_num)
